import Mathlib

/-!
Verification development for the `law-to-markdown` stage-2/stage-3 core:
`cn_law_normalizer.py` (structural normalizer with preservation check),
`stage3_checker.py` (content-accuracy and structural rule checker), and the
retry/auto-fix controller `_run_stage2_stage3_pipeline` in `law_to_markdown.py`.

The Python code is shallowly embedded: documents are `String`s (lists of
unicode scalar values), the anchored regular expressions of the source are
translated into deterministic character-list matchers (each translation is
justified in its doc comment), and file contents reached through `pathlib`
are modelled by an explicit `FileState` value.  All definitions are
executable.
-/

set_option maxHeartbeats 1000000

namespace CnLaw

/-! ### Character classes -/

/-- The fixed numeral alphabet `_CN_NUM = "零〇一二三四五六七八九十百千万两0-9"`. -/
def cnNumChars : List Char :=
  ['零', '〇', '一', '二', '三', '四', '五', '六', '七', '八', '九', '十', '百', '千', '万', '两']

def isAsciiDigit (c : Char) : Bool := '0' ≤ c && c ≤ '9'

/-- Membership in the character class `[零〇一二三四五六七八九十百千万两0-9]`. -/
def isCnNum (c : Char) : Bool := cnNumChars.contains c || isAsciiDigit c

/-- Membership in `_RE_ITEM`'s class `[一二三四五六七八九十百千万零〇两]`:
the same sixteen Chinese numerals, without the ASCII digits. -/
def isItemNum (c : Char) : Bool := cnNumChars.contains c

/-- The class `[ \t　]` used by `_RE_TRAILING_WS`, the whitespace-removal
substitutions, and the heading-content strips. -/
def isHWs (c : Char) : Bool := c = ' ' || c = '\t' || c = '　'

/-- Line-break characters recognized by Python `str.splitlines`. -/
def isLineBreak (c : Char) : Bool :=
  c = '\n' || c = '\r' || c = '\x0b' || c = '\x0c' ||
  c = '\x1c' || c = '\x1d' || c = '\x1e' || c = '\x85' ||
  c = '\u2028' || c = '\u2029'

/-- Python `str`-mode `\s` / `str.isspace`: ASCII whitespace plus the Unicode
space characters. -/
def isPySpace (c : Char) : Bool :=
  c = ' ' || c = '\t' || isLineBreak c || c = '\xa0' || c = '\u1680' ||
  (('\u2000' ≤ c) && (c ≤ '\u200a')) || c = '\u202f' || c = '\u205f' || c = '　'

/-- Word characters for the `\b` boundary in `_RE_NON_LAW_STD`: ASCII
alphanumerics and underscore, CJK unified ideographs, kana, and full-width
alphanumerics (the repertoire relevant to these documents; Python `\w` covers
further scripts that never interact with the ASCII standard-code prefixes the
pattern looks for). -/
def isWordChar (c : Char) : Bool :=
  ('a' ≤ c && c ≤ 'z') || ('A' ≤ c && c ≤ 'Z') || isAsciiDigit c || c = '_' ||
  (0x3400 ≤ c.toNat && c.toNat ≤ 0x4DBF) || (0x4E00 ≤ c.toNat && c.toNat ≤ 0x9FFF) ||
  (0xF900 ≤ c.toNat && c.toNat ≤ 0xFAFF) || (0x3040 ≤ c.toNat && c.toNat ≤ 0x30FF) ||
  (0xFF10 ≤ c.toNat && c.toNat ≤ 0xFF19) || (0xFF21 ≤ c.toNat && c.toNat ≤ 0xFF3A) ||
  (0xFF41 ≤ c.toNat && c.toNat ≤ 0xFF5A)

/-- ASCII lowercasing, for the `re.IGNORECASE` flag on `_RE_NON_LAW_STD`
(all pattern letters are ASCII). -/
def charLower (c : Char) : Char :=
  if 'A' ≤ c && c ≤ 'Z' then Char.ofNat (c.toNat + 32) else c

/-! ### Python string primitives -/

/-- Helper for `pySplitlines`: accumulates the current line (reversed). -/
def splitlinesGo : List Char → List Char → List (List Char)
  | [], cur => [cur.reverse]
  | '\r' :: '\n' :: rest, cur =>
      cur.reverse :: (if rest = [] then [] else splitlinesGo rest [])
  | '\r' :: rest, cur =>
      cur.reverse :: (if rest = [] then [] else splitlinesGo rest [])
  | c :: rest, cur =>
      if isLineBreak c then cur.reverse :: (if rest = [] then [] else splitlinesGo rest [])
      else splitlinesGo rest (c :: cur)

/-- Python `str.splitlines()`: split at any line-break character, treating
`\r\n` as a single break, with no empty final line for a trailing break and
`[]` for the empty string. -/
def pySplitlines (l : List Char) : List (List Char) :=
  if l = [] then [] else splitlinesGo l []

/-- `"\n".join(lines)`. -/
def joinNL (ls : List (List Char)) : List Char := (ls.intersperse ['\n']).flatten

/-- `str.strip()` with no arguments (Python whitespace on both ends). -/
def pyStrip (l : List Char) : List Char :=
  ((l.dropWhile isPySpace).reverse.dropWhile isPySpace).reverse

/-- Strip a trailing `[ \t　]+` run: the effect of
`_RE_TRAILING_WS.sub("", line)`. -/
def dropTrailingHWs (l : List Char) : List Char := (l.reverse.dropWhile isHWs).reverse

/-- `str.strip(" \t　")`. -/
def stripHWs (l : List Char) : List Char := (l.dropWhile isHWs).reverse.dropWhile isHWs |>.reverse

/-- `re.sub(r"[ \t　]+", "", line)`: delete every such character. -/
def removeHWs (l : List Char) : List Char := l.filter (fun c => !isHWs c)

/-- Length of the leading run of `#` characters. -/
def hashRun (l : List Char) : Nat := (l.takeWhile (· = '#')).length

/-! ### The anchored regular expressions of `cn_law_normalizer.py`

Each matcher is the deterministic reading of its regex.  For
`^\s*第[NUM]+X` (with `X` a literal not in the class and not whitespace,
`第` not whitespace): greedy `\s*` with backtracking succeeds exactly when
the character after the maximal whitespace run is `第`, and `[NUM]+X`
succeeds exactly when the maximal numeral run after `第` is non-empty and is
followed by `X` (a shorter run would put a numeral where `X` must be). -/

/-- Shared shape of the structural matchers: optional whitespace, `第`,
one or more numerals, then a tail condition on the remainder. -/
def matchStructCore (l : List Char) (tailOk : List Char → Bool) : Bool :=
  match l.dropWhile isPySpace with
  | c :: rest =>
      c = '第' && decide (0 < (rest.takeWhile isCnNum).length) &&
        tailOk (rest.drop (rest.takeWhile isCnNum).length)
  | [] => false

/-- `_RE_PART = ^\s*第[NUM]+(?:编|分编)` (neither `编` nor `分` is a numeral). -/
def rePart (l : List Char) : Bool :=
  matchStructCore l (fun t => t.head? = some '编' || t.take 2 = ['分', '编'])

/-- `_RE_CHAPTER = ^\s*第[NUM]+章`. -/
def reChapter (l : List Char) : Bool := matchStructCore l (fun t => t.head? = some '章')

/-- `_RE_SECTION = ^\s*第[NUM]+节`. -/
def reSection (l : List Char) : Bool := matchStructCore l (fun t => t.head? = some '节')

/-- `_RE_ARTICLE_HEAD = ^\s*第[NUM]+条`. -/
def reArticleHead (l : List Char) : Bool := matchStructCore l (fun t => t.head? = some '条')

/-- `_RE_ARTICLE = ^(\s*)(第[NUM]+条)(.*)$ `: the three capture groups
(leading whitespace, the article token, the remainder of the line). -/
def reArticleGroups (l : List Char) : Option (List Char × List Char × List Char) :=
  let lead := l.takeWhile isPySpace
  match l.drop lead.length with
  | '第' :: rest =>
      let nums := rest.takeWhile isCnNum
      if nums.length = 0 then none
      else
        match rest.drop nums.length with
        | '条' :: after => some (lead, '第' :: (nums ++ ['条']), after)
        | _ => none
  | _ => none

/-- `re.match(r"^\s*【[^】]+】", rest)`: after optional whitespace, `【`,
a non-empty run without `】`, then `】`. -/
def matchBracketNote (l : List Char) : Bool :=
  match l.dropWhile isPySpace with
  | '【' :: rest =>
      let inner := rest.takeWhile (· ≠ '】')
      decide (0 < inner.length) && (rest.drop inner.length).head? = some '】'
  | _ => false

/-- `_strip_heading_prefix` / `_RE_HEADING_PREFIX.sub("", line, count=1)` with
pattern `^(#{1,6})[ \t]+`: if the line starts with one to six `#` followed by
at least one space/tab, remove the hashes and the whole space/tab run
(with seven or more hashes nothing matches, since after at most six hashes
the next character is `#`, not a space). -/
def stripHeadingMarks (l : List Char) : List Char :=
  let h := hashRun l
  if 1 ≤ h ∧ h ≤ 6 then
    let rest := l.drop h
    let w := (rest.takeWhile (fun c => c = ' ' || c = '\t')).length
    if 0 < w then rest.drop w else l
  else l

/-- One line of `_canonical_without_format`:
`_RE_CANONICAL_HEADING_PREFIX = ^(#{1,6}) ` removed once (one to six hashes
followed by a single space), then all `[ \t　]` removed. -/
def canonicalLine (l : List Char) : List Char :=
  let h := hashRun l
  let stripped := if 1 ≤ h ∧ h ≤ 6 ∧ l.get? h = some ' ' then l.drop (h + 1) else l
  removeHWs stripped

/-- `_canonical_without_format`: canonicalize per line and concatenate with no
separator. -/
def canonicalWithoutFormat (l : List Char) : List Char :=
  ((pySplitlines l).map canonicalLine).flatten

/-! ### Item / subitem markers

`_RE_ITEM = （[一二三四五六七八九十百千万零〇两]+）` matches a full-width
open parenthesis, one or more Chinese numerals, and a full-width close
parenthesis; since `）` is not a numeral the greedy `+` deterministically
takes the maximal numeral run.  `_RE_SUBITEM = (?:\([0-9]{1,3}\)|[0-9]{1,3}[、.．])`
tries the ASCII-parenthesized branch first; in either branch the separator
after the digits is not a digit, so the bounded greedy `{1,3}` succeeds
exactly when the maximal digit run has length one to three and is followed
by the closing character. -/

/-- Match length of `_RE_ITEM` at the head of `l`, if any. -/
def itemMatchLen (l : List Char) : Option Nat :=
  match l with
  | '（' :: rest =>
      let n := (rest.takeWhile isItemNum).length
      if 0 < n ∧ (rest.drop n).head? = some '）' then some (n + 2) else none
  | _ => none

def isSubitemSep (c : Char) : Bool := c = '、' || c = '.' || c = '．'

/-- Match length of `_RE_SUBITEM` at the head of `l`, if any (`(` is not a
digit, so the second branch cannot fire when the first character is `(`). -/
def subitemMatchLen (l : List Char) : Option Nat :=
  match l with
  | '(' :: rest =>
      let n := (rest.takeWhile isAsciiDigit).length
      if 1 ≤ n ∧ n ≤ 3 ∧ (rest.drop n).head? = some ')' then some (n + 2) else none
  | _ =>
      let n := (l.takeWhile isAsciiDigit).length
      if 1 ≤ n ∧ n ≤ 3 ∧ ((l.drop n).head?.map isSubitemSep).getD false = true
      then some (n + 1) else none

/-- `re.finditer` start positions: scan left to right, and after a match of
length `k` continue at the character past the match (both matchers above
return `k ≥ 3 ≥ 1`; `max k 1` only guards degenerate matchers).  The scan
consumes at least one character per step, so running it with `fuel` equal to
the list length is exact; the fuel keeps the recursion structural. -/
def finditerGo (matchLen : List Char → Option Nat) : Nat → List Char → Nat → List Nat
  | 0, _, _ => []
  | _ + 1, [], _ => []
  | fuel + 1, c :: rest, pos =>
      match matchLen (c :: rest) with
      | some k => pos :: finditerGo matchLen fuel (rest.drop (max k 1 - 1)) (pos + max k 1)
      | none => finditerGo matchLen fuel rest (pos + 1)

/-- `[m.start() for m in _RE_ITEM.finditer(line)]`. -/
def itemStarts (l : List Char) : List Nat := finditerGo itemMatchLen l.length l 0

/-- The subitem start positions. -/
def subitemStarts (l : List Char) : List Nat := finditerGo subitemMatchLen l.length l 0

/-- Insert into a strictly sorted list, discarding duplicates. -/
def insertSorted (n : Nat) : List Nat → List Nat
  | [] => [n]
  | m :: ms =>
      if n < m then n :: m :: ms
      else if n = m then m :: ms
      else m :: insertSorted n ms

/-- `sorted(set(xs))` as a strictly sorted list. -/
def dedupSort (xs : List Nat) : List Nat := xs.foldr insertSorted []

/-- The combined marker start positions of `_split_item_and_subitem`. -/
def splitMarkers (l : List Char) : List Nat := dedupSort (itemStarts l ++ subitemStarts l)

/-- The successive slices `line[last:m₁], line[m₁:m₂], …, line[mₖ:]`
(Python slicing: `line[a:b] = (line.take b).drop a`). -/
def slicesFrom (l : List Char) (last : Nat) : List Nat → List (List Char)
  | [] => [l.drop last]
  | m :: ms => ((l.take m).drop last) :: slicesFrom l m ms

/-- `_split_item_and_subitem(line)`: if the line holds at most one item or
subitem marker return it whole, else cut it at every marker after the first,
returning the pieces and the number of cuts. -/
def splitItemAndSubitem (l : List Char) : List (List Char) × Nat :=
  let markers := splitMarkers l
  if markers.length ≤ 1 then ([l], 0)
  else (slicesFrom l 0 markers.tail, markers.tail.length)

/-! ### `_cleanup_extra_spaces` -/

/-- `_RE_HEADING_LINE = ^(#{1,6})[ \t　]*(.*)$ ` : any line starting with `#`
matches; the marks group greedily takes at most six hashes, then the maximal
`[ \t　]` run separates it from the content group. -/
def headingLineMatch (l : List Char) : Option (List Char × List Char) :=
  let h := hashRun l
  if h = 0 then none
  else
    let marks := l.takeWhile (· = '#') |>.take 6
    let rest := l.drop marks.length
    some (marks, rest.drop ((rest.takeWhile isHWs).length))

/-- One line of `_cleanup_extra_spaces`: the rewritten line and the number of
counter increments (heading lines count at most one change; body lines count
the trailing strip, the leading ASCII strip and the leading full-width strip
separately). -/
def cleanupLine (line : List Char) : List Char × Nat :=
  match headingLineMatch line with
  | some (marks, content) =>
      let c := stripHWs (dropTrailingHWs content)
      let normalized := if c = [] then marks else marks ++ ' ' :: c
      (normalized, if normalized = line then 0 else 1)
  | none =>
      let t := dropTrailingHWs line
      let n₁ : Nat := if t = line then 0 else 1
      let la := (t.takeWhile (fun c => c = ' ' || c = '\t')).length
      let t₂ := t.drop la
      let n₂ : Nat := if 0 < la then 1 else 0
      let lf := (t₂.takeWhile (· = '　')).length
      let t₃ := t₂.drop lf
      let n₃ : Nat := if 0 < lf then 1 else 0
      (t₃, n₁ + n₂ + n₃)

/-- `_cleanup_extra_spaces(lines)`. -/
def cleanupExtraSpaces (lines : List (List Char)) : List (List Char) × Nat :=
  (lines.map (fun l => (cleanupLine l).1), (lines.map (fun l => (cleanupLine l).2)).sum)

/-! ### Non-law classification -/

/-- The alternatives of `_RE_NON_LAW_STD` in regex order (`GB/T` before `GB`
because `(?:/T)?` is greedy), lowercased; each is followed by a `\b` test. -/
def nonLawStdPats : List (List Char) :=
  [['g', 'b', '/', 't'], ['g', 'b'], ['d', 'b'], ['i', 's', 'o'], ['i', 'e', 'c'],
   ['a', 's', 't', 'm'], ['j', 'j', 'f'], ['t', '/']]

/-- Case-insensitive literal match at the head of `l`. -/
def icaseStartsWith (l pat : List Char) : Bool :=
  (l.take pat.length).map charLower = pat

/-- `_RE_NON_LAW_STD.search(content)`: the pattern is anchored (`^\s*…`), so
it fires exactly when one of the alternatives follows the maximal leading
whitespace run and ends at a `\b` boundary (previous character's word-ness,
which the case of a letter does not change, differs from the next
character's; end of string counts as non-word). -/
def reNonLawStd (l : List Char) : Bool :=
  let body := l.dropWhile isPySpace
  nonLawStdPats.any fun pat =>
    icaseStartsWith body pat &&
      (isWordChar (pat.getLastD ' ') !=
        (((body.drop pat.length).head?.map isWordChar).getD false))

def nonLawKeywords : List (List Char) :=
  [['国', '家', '标', '准'], ['行', '业', '标', '准'],
   ['地', '方', '标', '准'], ['团', '体', '标', '准']]

/-- Substring containment, for the unanchored
`_RE_NON_LAW_KEYWORD.search(content)`. -/
def containsSub (l pat : List Char) : Bool := l.tails.any (pat.isPrefixOf ·)

def reNonLawKeyword (l : List Char) : Bool := nonLawKeywords.any (containsSub l)

/-- The loop body of `_is_non_law_document`: `checked` counts examined lines;
a standards-code or standards-keyword line decides non-law; after the 80th
examined line the scan stops. -/
def isNonLawDocumentGo : List (List Char) → Nat → Bool
  | [], _ => false
  | raw :: rest, checked =>
      let content := pyStrip (stripHeadingMarks raw)
      if content = [] then isNonLawDocumentGo rest checked
      else if ("<!-- Page ".data).isPrefixOf content then isNonLawDocumentGo rest checked
      else if reNonLawStd content || reNonLawKeyword content then true
      else if checked + 1 ≥ 80 then false
      else isNonLawDocumentGo rest (checked + 1)

/-- `_is_non_law_document(lines)`. -/
def isNonLawDocument (lines : List (List Char)) : Bool := isNonLawDocumentGo lines 0

/-! ### `normalize_cn_law_markdown` -/

/-- The stats dictionary of a normalization result. -/
structure NormStats where
  legal_structure_detected : Bool
  preserve_check_passed : Bool
  reason : String
  title_count : Nat
  part_count : Nat
  chapter_count : Nat
  section_count : Nat
  article_count : Nat
  item_split_count : Nat
  space_cleanup_count : Nat
deriving Repr, DecidableEq

/-- The `(text, applied, stats)` triple returned by the normalizer. -/
structure NormResult where
  text : String
  applied : Bool
  stats : NormStats
deriving Repr, DecidableEq

def nonLawStats : NormStats := ⟨false, true, "non-law-document", 0, 0, 0, 0, 0, 0, 0⟩

def noStructStats : NormStats :=
  ⟨false, true, "legal-structure-not-detected", 0, 0, 0, 0, 0, 0, 0⟩

def preserveFailStats : NormStats := ⟨true, false, "preserve-check-failed", 0, 0, 0, 0, 0, 0, 0⟩

/-- Structure-detection state: the four marker flags and the indexes of
structural lines, in order of appearance. -/
structure DetectState where
  has_part : Bool
  has_chapter : Bool
  has_section : Bool
  has_article : Bool
  idxs : List Nat
deriving Repr, DecidableEq

/-- One line of the detection scan; the patterns are tried in the source's
order (article, section, chapter, part) on the heading-stripped content. -/
def detectStep (st : DetectState) (ir : Nat × List Char) : DetectState :=
  let content := stripHeadingMarks ir.2
  if reArticleHead content then { st with has_article := true, idxs := st.idxs ++ [ir.1] }
  else if reSection content then { st with has_section := true, idxs := st.idxs ++ [ir.1] }
  else if reChapter content then { st with has_chapter := true, idxs := st.idxs ++ [ir.1] }
  else if rePart content then { st with has_part := true, idxs := st.idxs ++ [ir.1] }
  else st

def detectStructure (lines : List (List Char)) : DetectState :=
  lines.enum.foldl detectStep ⟨false, false, false, false, []⟩

/-- A line counted as an Article-marker line: `_RE_ARTICLE_HEAD` on the
heading-stripped content. -/
def lineIsArticle (raw : List Char) : Bool := reArticleHead (stripHeadingMarks raw)

/-- A Section-marker line. -/
def lineIsSection (raw : List Char) : Bool := reSection (stripHeadingMarks raw)

/-- A Chapter-marker line. -/
def lineIsChapter (raw : List Char) : Bool := reChapter (stripHeadingMarks raw)

/-- A Part-marker line. -/
def lineIsPart (raw : List Char) : Bool := rePart (stripHeadingMarks raw)

/-- `min(structure_indexes) if structure_indexes else len(lines)`. -/
def firstStructureIdx (idxs : List Nat) (n : Nat) : Nat :=
  match idxs with
  | [] => n
  | x :: xs => xs.foldl Nat.min x

/-- The title search: the first line with non-blank `raw.strip()` among the
lines before the first structural line (`-1`, here `none`, when absent). -/
def titleIdxOf (lines : List (List Char)) (firstIdx : Nat) : Option Nat :=
  (lines.enum.find? fun p => p.1 < firstIdx && pyStrip p.2 ≠ []).map (·.1)

/-- Accumulator of the main rewrite loop. -/
structure LoopState where
  out : List (List Char)
  title_count : Nat
  part_count : Nat
  chapter_count : Nat
  section_count : Nat
  article_count : Nat
  item_split_count : Nat
deriving Repr, DecidableEq

/-- The body of `for idx, raw in enumerate(lines)` in
`normalize_cn_law_markdown`. -/
def stepLine (profile : String) (titleIdx : Option Nat) (st : LoopState)
    (ir : Nat × List Char) : LoopState :=
  let raw := ir.2
  if raw = [] then { st with out := st.out ++ [raw] }
  else
    let content := stripHeadingMarks raw
    if titleIdx = some ir.1 then
      { st with out := st.out ++ ["# ".data ++ content], title_count := st.title_count + 1 }
    else if rePart content then
      { st with out := st.out ++ ["## ".data ++ content], part_count := st.part_count + 1 }
    else if reChapter content then
      { st with out := st.out ++ ["### ".data ++ content],
                chapter_count := st.chapter_count + 1 }
    else if reSection content then
      { st with out := st.out ++ ["#### ".data ++ content],
                section_count := st.section_count + 1 }
    else
      match reArticleGroups content with
      | some (leading, token, rest) =>
          if matchBracketNote rest then
            { st with out := st.out ++ ["##### ".data ++ content],
                      article_count := st.article_count + 1 }
          else
            let st' := { st with out := st.out ++ ["##### ".data ++ leading ++ token],
                                 article_count := st.article_count + 1 }
            if rest = [] then st'
            else if profile = "default" then
              let pk := splitItemAndSubitem rest
              { st' with out := st'.out ++ pk.1,
                         item_split_count := st'.item_split_count + pk.2 }
            else { st' with out := st'.out ++ [rest] }
      | none =>
          if profile = "default" then
            let pk := splitItemAndSubitem raw
            { st with out := st.out ++ pk.1,
                      item_split_count := st.item_split_count + pk.2 }
          else { st with out := st.out ++ [raw] }

def runLoop (profile : String) (titleIdx : Option Nat) (lines : List (List Char)) : LoopState :=
  lines.enum.foldl (stepLine profile titleIdx) ⟨[], 0, 0, 0, 0, 0, 0⟩

/-- The transformed text (before the preservation gate) together with the
loop counters and the whitespace-cleanup count. -/
def normTransform (text : String) (profile : String) : List Char × LoopState × Nat :=
  let lines := pySplitlines text.data
  let det := detectStructure lines
  let ti := titleIdxOf lines (firstStructureIdx det.idxs lines.length)
  let st := runLoop profile ti lines
  let cs := cleanupExtraSpaces st.out
  (joinNL cs.1 ++ (if text.data.getLast? = some '\n' then ['\n'] else []), st, cs.2)

/-- `stage2_profile` after the guard
`if stage2_profile not in {"default", "structure", "minimal"}`. -/
def validProfile (p : String) : String :=
  if p = "default" || p = "structure" || p = "minimal" then p else "default"

/-- The `legal_structure_detected` flag computed from the detection scan. -/
def legalDetected (lines : List (List Char)) : Bool :=
  let det := detectStructure lines
  det.has_article || (det.has_chapter && det.has_section) ||
    (det.has_part && det.has_chapter)

/-- `normalize_cn_law_markdown(text, law_decision, stage2_profile)`. -/
def normalizeCnLawMarkdown (text : String) (law_decision : String)
    (stage2_profile : String) : NormResult :=
  let lines := pySplitlines text.data
  let profile := validProfile stage2_profile
  if law_decision = "non-law" then ⟨text, false, nonLawStats⟩
  else if law_decision = "auto" && isNonLawDocument lines then ⟨text, false, nonLawStats⟩
  else
    if legalDetected lines = false then ⟨text, false, noStructStats⟩
    else
      let r := normTransform text profile
      if canonicalWithoutFormat text.data = canonicalWithoutFormat r.1 then
        let applied : Bool := r.1 ≠ text.data
        ⟨String.mk r.1, applied,
          ⟨true, true, if applied then "applied" else "no-op",
           r.2.1.title_count, r.2.1.part_count, r.2.1.chapter_count,
           r.2.1.section_count, r.2.1.article_count, r.2.1.item_split_count, r.2.2⟩⟩
      else ⟨text, false, preserveFailStats⟩

/-! ### `stage3_checker.py` -/

/-- A `CheckItem` dictionary: `status` is `true` for `"PASS"`.  The
`evidence` dictionary is reporting-only and not modelled. -/
structure CheckItem where
  id : String
  status : Bool
  detail : String
deriving Repr, DecidableEq

/-- `_canonical_text`'s removal class `[ \t\r\n　]` (the `\r`/`\n` members are
vacuous inside a split line but kept from the source). -/
def isHWsCRLF (c : Char) : Bool := isHWs c || c = '\r' || c = '\n'

/-- One line of `_canonical_text`: `^(#{1,6}) ` stripped once, then all
`[ \t\r\n　]` removed. -/
def canonicalChkLine (l : List Char) : List Char :=
  let h := hashRun l
  let stripped := if 1 ≤ h ∧ h ≤ 6 ∧ l.get? h = some ' ' then l.drop (h + 1) else l
  stripped.filter (fun c => !isHWsCRLF c)

/-- `_canonical_text(text)`. -/
def canonicalChkText (l : List Char) : List Char :=
  ((pySplitlines l).map canonicalChkLine).flatten

/-- `_check_stage3_a`: PASS exactly when the canonical character streams of
the stage-1 and stage-2 texts coincide. -/
def checkStage3A (stage1Text stage2Text : String) : CheckItem :=
  if canonicalChkText stage1Text.data = canonicalChkText stage2Text.data then
    ⟨"CHK-001", true, "字符流一致（已忽略标题标记与空白差异）"⟩
  else ⟨"CHK-001", false, "发现非空白字符差异"⟩

/-- `_extract_heading`: `^(#{1,6}) (.*)$ ` — one to six hashes, a single
space, then the content (with seven or more hashes no split point gives a
space after the hashes, so there is no match). -/
def extractHeading (l : List Char) : Option (Nat × List Char) :=
  let h := hashRun l
  if 1 ≤ h ∧ h ≤ 6 ∧ l.get? h = some ' ' then some (h, l.drop (h + 1)) else none

/-- `_is_non_law_text`: like the normalizer's classifier but on the bare
stripped line (no heading-marker strip). -/
def isNonLawTextGo : List (List Char) → Nat → Bool
  | [], _ => false
  | raw :: rest, checked =>
      let content := pyStrip raw
      if content = [] then isNonLawTextGo rest checked
      else if ("<!-- Page ".data).isPrefixOf content then isNonLawTextGo rest checked
      else if reNonLawStd content || reNonLawKeyword content then true
      else if checked + 1 ≥ 80 then false
      else isNonLawTextGo rest (checked + 1)

def isNonLawText (lines : List (List Char)) : Bool := isNonLawTextGo lines 0

/-- The checker's unanchored-whitespace structural patterns
(`^第[NUM]+(?:编|分编)` and friends match at the very first character). -/
def matchStructCoreNoWs (l : List Char) (tailOk : List Char → Bool) : Bool :=
  match l with
  | c :: rest =>
      c = '第' && decide (0 < (rest.takeWhile isCnNum).length) &&
        tailOk (rest.drop (rest.takeWhile isCnNum).length)
  | [] => false

def rePartNoWs (l : List Char) : Bool :=
  matchStructCoreNoWs l (fun t => t.head? = some '编' || t.take 2 = ['分', '编'])

def reChapterNoWs (l : List Char) : Bool :=
  matchStructCoreNoWs l (fun t => t.head? = some '章')

def reSectionNoWs (l : List Char) : Bool :=
  matchStructCoreNoWs l (fun t => t.head? = some '节')

/-- The `heading_rows` table: 1-based row number, level, heading content. -/
def headingRows (lines : List (List Char)) : List (Nat × Nat × List Char) :=
  lines.enum.filterMap fun p =>
    (extractHeading p.2).map fun lc => (p.1 + 1, lc.1, lc.2)

/-- The CHK-103 scan: first hierarchy violation (if any) and the number of
level-1 title headings seen before it. -/
def hierarchyScan : List (Nat × Nat × List Char) → Nat → Option String × Nat
  | [], titles => (none, titles)
  | (row, level, content) :: rest, titles =>
      if 5 < level then (some ("line " ++ toString row ++ ": heading level > 5"), titles)
      else if rePartNoWs content then
        if level ≠ 2 then (some ("line " ++ toString row ++ ": 编/分编必须是二级标题"), titles)
        else hierarchyScan rest titles
      else if reChapterNoWs content then
        if level ≠ 3 then (some ("line " ++ toString row ++ ": 章必须是三级标题"), titles)
        else hierarchyScan rest titles
      else if reSectionNoWs content then
        if level ≠ 4 then (some ("line " ++ toString row ++ ": 节必须是四级标题"), titles)
        else hierarchyScan rest titles
      else if reArticleHead content then
        if level ≠ 5 then (some ("line " ++ toString row ++ ": 条必须是五级标题"), titles)
        else hierarchyScan rest titles
      else if level = 1 then hierarchyScan rest (titles + 1)
      else (some ("line " ++ toString row ++ ": 非结构标题层级异常"), titles)

/-- CHK-103's failure value: the scan's violation, or the missing-title
failure when the scan passed but found no level-1 heading. -/
def hierarchyFail (rows : List (Nat × Nat × List Char)) : Option String :=
  match hierarchyScan rows 0 with
  | (some f, _) => some f
  | (none, titles) => if titles = 0 then some "缺少一级标题（法律名称）" else none

/-- The first CHK-104 loop, over heading rows: a level-5 article heading may
carry no remainder other than a bracket annotation, and an article marker in
a heading must be at level 5. -/
def articleHeadScan : List (Nat × Nat × List Char) → Option String
  | [] => none
  | (row, level, content) :: rest =>
      if level = 5 then
        match reArticleGroups content with
        | some (_, _, r) =>
            if r ≠ [] && !matchBracketNote r then
              some ("line " ++ toString row ++ ": 第X条标题中混入正文")
            else articleHeadScan rest
        | none => articleHeadScan rest
      else
        if reArticleHead content then some ("line " ++ toString row ++ ": 第X条未使用五级标题")
        else articleHeadScan rest

/-- The second CHK-104 loop, over raw lines: outside headings an article
marker must not be followed by body text on the same line. -/
def articleBodyScan : List (Nat × List Char) → Option String
  | [] => none
  | (idx, line) :: rest =>
      if (extractHeading line).isSome then articleBodyScan rest
      else
        match reArticleGroups line with
        | some (_, _, r) =>
            if pyStrip r ≠ [] then some ("line " ++ toString idx ++ ": 第X条与正文未拆行")
            else articleBodyScan rest
        | none => articleBodyScan rest

/-- `re.match(r"^#{1,5}(?: .*)?$", line)`: one to five hashes alone or
followed by a space and anything. -/
def headingFormatOk (l : List Char) : Bool :=
  let h := hashRun l
  h ≤ 5 && (l.drop h = [] || (l.drop h).head? = some ' ')

/-- The CHK-105 scan: first whitespace violation. -/
def spaceScan : List (Nat × List Char) → Option String
  | [] => none
  | (idx, line) :: rest =>
      if (line.reverse.head?.map isHWs).getD false then
        some ("line " ++ toString idx ++ ": trailing whitespace")
      else if line.head? = some ' ' || line.head? = some '\t' then
        some ("line " ++ toString idx ++ ": leading ASCII whitespace")
      else if line.head? = some '　' then
        some ("line " ++ toString idx ++ ": leading fullwidth whitespace")
      else if line.head? = some '#' && !headingFormatOk line then
        some ("line " ++ toString idx ++ ": heading format invalid")
      else spaceScan rest

/-- The CHK-106 scan: outside headings, at most one item/subitem marker per
line (`len(findall)` is the number of `finditer` matches). -/
def itemScan : List (Nat × List Char) → Option String
  | [] => none
  | (idx, line) :: rest =>
      if (extractHeading line).isSome then itemScan rest
      else if 1 < (itemStarts line).length + (subitemStarts line).length then
        some ("line " ++ toString idx ++ ": 一行内出现多个项/目标记")
      else itemScan rest

/-- The structured result of `_check_stage3_b`. -/
structure StageBResult where
  pass : Bool
  checks : List CheckItem
  fail_ids : List String
  auto_fixable_fail : Bool
  business_decision : String
  reject_reason : String
deriving Repr, DecidableEq

/-- 1-based enumeration of the lines. -/
def enumLines (lines : List (List Char)) : List (Nat × List Char) :=
  lines.enum.map fun p => (p.1 + 1, p.2)

/-- CHK-104's failure value: the heading-row violation, else the body-line
violation. -/
def articleFail (lines : List (List Char)) : Option String :=
  match articleHeadScan (headingRows lines) with
  | some f => some f
  | none => articleBodyScan (enumLines lines)

def chapterHeadingCount (lines : List (List Char)) : Nat :=
  (headingRows lines).countP fun r => reChapterNoWs r.2.2

def articleHeadingCount (lines : List (List Char)) : Nat :=
  (headingRows lines).countP fun r => reArticleHead r.2.2

/-- CHK-107's failure value: no chapter heading and no article heading. -/
def structuralFail (lines : List (List Char)) : Option String :=
  if chapterHeadingCount lines = 0 ∧ articleHeadingCount lines = 0 then
    some "缺少章/条结构" else none

/-- The rule evaluation of `_check_stage3_b` outside the non-law branch
(rules CHK-103 … CHK-107 and the final decision assembly). -/
def stageBMain (lines : List (List Char)) : StageBResult :=
  let hFail := hierarchyFail (headingRows lines)
  let aFail := articleFail lines
  let sFail := spaceScan (enumLines lines)
  let iFail := itemScan (enumLines lines)
  let stFail := structuralFail lines
  let fail_ids :=
    (if hFail.isSome then ["CHK-103"] else []) ++
    (if aFail.isSome then ["CHK-104"] else []) ++
    (if sFail.isSome then ["CHK-105"] else []) ++
    (if iFail.isSome then ["CHK-106"] else []) ++
    (if stFail.isSome then ["CHK-107"] else [])
  { pass := fail_ids = [],
    checks :=
      [⟨"CHK-103", hFail.isNone, hFail.getD "层级合法"⟩,
       ⟨"CHK-104", aFail.isNone, aFail.getD "条标题规则通过"⟩,
       ⟨"CHK-105", sFail.isNone, sFail.getD "空格规范通过"⟩,
       ⟨"CHK-106", iFail.isNone, iFail.getD "项/目换行规范通过"⟩,
       ⟨"CHK-107", stFail.isNone,
         stFail.getD ("chapter=" ++ toString (chapterHeadingCount lines) ++
           ", article=" ++ toString (articleHeadingCount lines))⟩],
    fail_ids := fail_ids,
    auto_fixable_fail :=
      fail_ids ≠ [] && fail_ids.all (fun x => x = "CHK-105" || x = "CHK-106"),
    business_decision := if fail_ids = [] then "approved" else "rejected_check_failed",
    reject_reason := if fail_ids = [] then "" else "stage3-check-failed" }

/-- `_check_stage3_b(stage2_text, law_decision, stage2_reason)`. -/
def checkStage3B (stage2Text : String) (law_decision stage2_reason : String) : StageBResult :=
  let lines := pySplitlines stage2Text.data
  if law_decision = "non-law" || stage2_reason = "non-law-document" then
    let ok := isNonLawText lines
    { pass := ok,
      checks := [⟨"CHK-102", ok, "非法律文档应触发拒绝路径"⟩],
      fail_ids := if ok then [] else ["CHK-102"],
      auto_fixable_fail := false,
      business_decision := "rejected_non_law",
      reject_reason := "non-law-document" }
  else
    stageBMain lines

/-! ### `run_stage3_checks` over modelled files -/

/-- The observable states of a stage file for `_read_text`: absent, present
but zero-sized, present but not UTF-8-decodable, or readable with non-empty
text `s`. -/
inductive FileState where
  | missing : FileState
  | empty : FileState
  | undecodable : FileState
  | content : String → FileState
deriving Repr, DecidableEq

/-- `_read_text(path)`: `(text, error)`. -/
def readText : FileState → Option String × Option String
  | .missing => (none, some "file-not-found")
  | .empty => (none, some "file-empty")
  | .undecodable => (none, some "utf8-decode-failed")
  | .content s => (some s, none)

/-- One check entry of `run_stage3_checks` (the wall-clock `timestamp` field
is not modelled; `stage2_profile` and `auto_fix_applied` are the keys the
controller adds afterwards). -/
structure CheckEntry where
  attempt : Nat
  stage3a_pass : Bool
  stage3b_pass : Bool
  overall_pass : Bool
  stage3b_auto_fixable_fail : Bool
  business_decision : String
  reject_reason : String
  checks : List CheckItem
  stage2_profile : String := ""
  auto_fix_applied : Bool := false
deriving Repr, DecidableEq

/-- `run_stage3_checks(stage1_path, stage2_path, law_decision, attempt,
stage2_reason)`. -/
def runStage3Checks (stage1 stage2 : FileState) (law_decision : String)
    (attempt : Nat) (stage2_reason : String) : CheckEntry :=
  let r1 := readText stage1
  let r2 := readText stage2
  let pre1 : CheckItem := ⟨"CHK-000A", r1.2.isNone, (r1.2).getD "ok"⟩
  let pre2 : CheckItem := ⟨"CHK-000B", r2.2.isNone, (r2.2).getD "ok"⟩
  if r1.2.isSome || r2.2.isSome then
    { attempt := attempt,
      stage3a_pass := false, stage3b_pass := false, overall_pass := false,
      stage3b_auto_fixable_fail := false,
      business_decision := "rejected_check_failed",
      reject_reason := "file-precheck-failed",
      checks := [pre1, pre2] }
  else
    let s1 := r1.1.getD ""
    let s2 := r2.1.getD ""
    let a := checkStage3A s1 s2
    let b := checkStage3B s2 law_decision stage2_reason
    { attempt := attempt,
      stage3a_pass := a.status, stage3b_pass := b.pass,
      overall_pass := a.status && b.pass && b.business_decision = "approved",
      stage3b_auto_fixable_fail := b.auto_fixable_fail,
      business_decision := b.business_decision,
      reject_reason := b.reject_reason,
      checks := [pre1, pre2, a] ++ b.checks }

/-! ### The retry / auto-fix controller of `law_to_markdown.py`

The controller works through the file system: the stage-1 file is written
once before the pipeline starts and the stage-2 file is rewritten by
`_prepare_stage2` (a byte copy of stage 1) and by the normalizer.  The model
carries the stage-2 file's text as explicit state; a written file of text
`s` reads back as the `empty` state exactly when `s` is the empty string. -/

/-- `_stage2_profile_for_attempt`. -/
def stage2ProfileForAttempt (attempt : Nat) : String :=
  if attempt = 0 then "default" else if attempt = 1 then "structure" else "minimal"

/-- `_run_stage2_normalize` acting on the stage-2 file's text: returns the
file's text afterwards (rewritten only when the normalization applied) and
the reason string of the stage-2 result. -/
def runStage2Normalize (text : String) (law_decision profile : String) : String × String :=
  let r := normalizeCnLawMarkdown text law_decision profile
  if r.stats.reason = "non-law-document" then (text, r.stats.reason)
  else if r.stats.preserve_check_passed = false then (text, "preserve-check-failed")
  else if r.stats.legal_structure_detected = false then (text, "legal-structure-not-detected")
  else if r.applied then (r.text, "applied")
  else (text, "already-normalized")

/-- `_apply_stage3_autofix`: re-normalize the current stage-2 text under the
`default` profile, rewriting the file only when something changed. -/
def applyStage3Autofix (stage2 : String) (law_decision : String) : String × Bool :=
  let r := normalizeCnLawMarkdown stage2 law_decision "default"
  if r.applied then (r.text, true) else (stage2, false)

/-- Reading back a file that was last written with text `s`. -/
def fileOf (s : String) : FileState := if s = "" then .empty else .content s

/-- The dictionary returned by `_run_stage2_stage3_pipeline` (the report and
legacy-file bookkeeping are I/O-only and not modelled). -/
structure PipelineResult where
  stage3_pass : Bool
  stage3_attempts : Nat
  attempts : List CheckEntry
  stage2_last_reason : String
  review_status : String
deriving Repr, DecidableEq

/-- The `for attempt in range(max(0, stage3_max_retries) + 1)` loop of
`_run_stage2_stage3_pipeline`; `fuel` is the number of attempts still
allowed, `stage2` the stage-2 file's current text, `acc` the recorded check
entries and `lastReason` the running `stage2_last_reason`. -/
def pipelineGo (stage1 law_decision : String) :
    Nat → Nat → String → List CheckEntry → String → PipelineResult
  | 0, _, _, acc, lastReason =>
      ⟨false, acc.length, acc, lastReason, "rejected_check_failed"⟩
  | fuel + 1, attempt, stage2, acc, _ =>
      let stage2base := if 0 < attempt then stage1 else stage2
      let profile := stage2ProfileForAttempt attempt
      let nr := runStage2Normalize stage2base law_decision profile
      let check0 := runStage3Checks (fileOf stage1) (fileOf nr.1) law_decision attempt nr.2
      let check := { check0 with stage2_profile := profile }
      let acc' := acc ++ [check]
      if check.business_decision = "rejected_non_law" then
        ⟨false, acc'.length, acc', nr.2, "rejected_non_law"⟩
      else if check.overall_pass then
        ⟨true, acc'.length, acc', nr.2, "approved"⟩
      else if check.stage3b_auto_fixable_fail then
        let af := applyStage3Autofix nr.1 law_decision
        if af.2 then
          let afCheck0 := runStage3Checks (fileOf stage1) (fileOf af.1) law_decision attempt "autofix"
          let afCheck :=
            { afCheck0 with stage2_profile := profile ++ "+autofix", auto_fix_applied := true }
          let acc'' := acc' ++ [afCheck]
          if afCheck.business_decision = "rejected_non_law" then
            ⟨false, acc''.length, acc'', "autofix", "rejected_non_law"⟩
          else if afCheck.overall_pass then
            ⟨true, acc''.length, acc'', "autofix", "approved"⟩
          else pipelineGo stage1 law_decision fuel (attempt + 1) af.1 acc'' "autofix"
        else pipelineGo stage1 law_decision fuel (attempt + 1) nr.1 acc' nr.2
      else pipelineGo stage1 law_decision fuel (attempt + 1) nr.1 acc' nr.2

/-- `_run_stage2_stage3_pipeline` with `skip_stage3_check=False`; every call
site enters it right after `_prepare_stage2`, so the stage-2 file's initial
text is the stage-1 text. -/
def runStage2Stage3Pipeline (stage1 : String) (law_decision : String)
    (stage3_max_retries : Nat) : PipelineResult :=
  pipelineGo stage1 law_decision (stage3_max_retries + 1) 0 stage1 [] ""

/-! ### Normal forms for the `default` profile

`lineNF` says that one pass of the rewrite loop and the whitespace cleanup
leave the line exactly as it is: the line is empty, or it is already the
heading (with clean spacing) that its structural classification produces,
or it is a clean body line that neither matches a structural pattern nor
splits.  `docNF` applies this to every line, with the title role taken by
the line the title search selects. -/

/-- One line is a fixed point of the `default`-profile rewrite: the loop
body reproduces it and the cleanup pass leaves it unchanged. -/
def lineNF (isTitle : Bool) (raw : List Char) : Bool :=
  if raw = [] then true
  else
    decide (cleanupLine raw = (raw, 0)) &&
    (if isTitle then decide (raw = "# ".data ++ stripHeadingMarks raw)
     else if rePart (stripHeadingMarks raw) then
       decide (raw = "## ".data ++ stripHeadingMarks raw)
     else if reChapter (stripHeadingMarks raw) then
       decide (raw = "### ".data ++ stripHeadingMarks raw)
     else if reSection (stripHeadingMarks raw) then
       decide (raw = "#### ".data ++ stripHeadingMarks raw)
     else
       match reArticleGroups (stripHeadingMarks raw) with
       | some (leading, token, rest) =>
           if matchBracketNote rest then
             decide (raw = "##### ".data ++ stripHeadingMarks raw)
           else decide (rest = []) && decide (raw = "##### ".data ++ leading ++ token)
       | none => decide ((splitMarkers raw).length ≤ 1))

/-- A line list is in normal form when each line is `lineNF` with respect to
the title position the normalizer would compute for it. -/
def docNF (ls : List (List Char)) : Bool :=
  ls.enum.all fun p =>
    lineNF
      (titleIdxOf ls (firstStructureIdx (detectStructure ls).idxs ls.length) = some p.1)
      p.2

/-! ## Theorems -/

/-- **C1** (preservation): whenever a normalization reports
`preserve_check_passed = true`, the canonical form (per line: one leading
heading-marker-plus-space stripped, all `[ \t　]` removed, lines concatenated
with no separator) of the returned text equals the canonical form of the
input. -/
theorem normalize_preserves_canonical_content
    (text law_decision stage2_profile : String)
    (h : (normalizeCnLawMarkdown text law_decision stage2_profile).stats.preserve_check_passed
        = true) :
    canonicalWithoutFormat
        (normalizeCnLawMarkdown text law_decision stage2_profile).text.data =
      canonicalWithoutFormat text.data := by
  simp only [normalizeCnLawMarkdown] at h ⊢
  split
  · rfl
  next h1 =>
    split
    · rfl
    next h2 =>
      split
      · rfl
      next h3 =>
        split
        · next hc => exact hc.symm
        next hc =>
          rw [if_neg h1, if_neg h2, if_neg h3, if_neg hc] at h

/-- Witness for `normalize_preserves_canonical_content` at a concrete
input. -/
theorem normalize_preserves_canonical_content_witness :
    canonicalWithoutFormat (normalizeCnLawMarkdown "第一条 abc" "law" "default").text.data =
      canonicalWithoutFormat "第一条 abc".data :=
  normalize_preserves_canonical_content "第一条 abc" "law" "default" (by decide)

/-- **C2**: when legal structure is detected but the transformed text's
canonical form differs from the input's, the normalizer discards all changes
and returns the original string with `applied = false`,
`preserve_check_passed = false` and `reason = "preserve-check-failed"`
(and all counters zero, as `preserveFailStats` records). -/
theorem preserve_check_failure_returns_original
    (text law_decision stage2_profile : String)
    (h1 : law_decision ≠ "non-law")
    (h2 : ¬(law_decision = "auto" ∧ isNonLawDocument (pySplitlines text.data) = true))
    (h3 : legalDetected (pySplitlines text.data) = true)
    (hc : canonicalWithoutFormat text.data ≠
        canonicalWithoutFormat (normTransform text (validProfile stage2_profile)).1) :
    normalizeCnLawMarkdown text law_decision stage2_profile =
      ⟨text, false, preserveFailStats⟩ := by
  simp only [normalizeCnLawMarkdown]
  rw [if_neg h1, if_neg (by simpa using h2), if_neg (by simp [h3]), if_neg hc]

/-- Witness for `preserve_check_failure_returns_original`: a seven-hash body
line is rewritten by the cleanup pass into `###### #`, which canonicalizes
differently, so the whole normalization is rejected. -/
theorem preserve_check_failure_returns_original_witness :
    normalizeCnLawMarkdown "第一条\n#######" "law" "default" =
      ⟨"第一条\n#######", false, preserveFailStats⟩ :=
  preserve_check_failure_returns_original "第一条\n#######" "law" "default"
    (by decide) (by decide) (by decide) (by decide)

/-- **C9**: in the non-law branch (`law_decision = "non-law"` or the stage-2
reason `"non-law-document"`), `_check_stage3_b` evaluates only rule CHK-102
and always returns `rejected_non_law` with reject reason
`"non-law-document"` and `auto_fixable_fail = false` — whether rule 1 passes
or fails. -/
theorem stageB_nonlaw_short_circuit (text law_decision stage2_reason : String)
    (h : law_decision = "non-law" ∨ stage2_reason = "non-law-document") :
    (checkStage3B text law_decision stage2_reason).checks.map CheckItem.id = ["CHK-102"] ∧
    (checkStage3B text law_decision stage2_reason).business_decision = "rejected_non_law" ∧
    (checkStage3B text law_decision stage2_reason).reject_reason = "non-law-document" ∧
    (checkStage3B text law_decision stage2_reason).auto_fixable_fail = false := by
  have hcond : (law_decision = "non-law" || stage2_reason = "non-law-document") = true := by
    rcases h with h | h <;> simp [h]
  unfold checkStage3B
  rw [if_pos hcond]
  exact ⟨rfl, rfl, rfl, rfl⟩

/-- Witness for `stageB_nonlaw_short_circuit` on a text that still carries
non-law evidence, so rule 1 passes and the other rules are skipped anyway. -/
theorem stageB_nonlaw_short_circuit_witness :
    (checkStage3B "GB/T 1.1 测试" "non-law" "").pass = true ∧
    (checkStage3B "GB/T 1.1 测试" "non-law" "").checks.map CheckItem.id = ["CHK-102"] ∧
    (checkStage3B "GB/T 1.1 测试" "non-law" "").business_decision = "rejected_non_law" ∧
    (checkStage3B "GB/T 1.1 测试" "non-law" "").reject_reason = "non-law-document" ∧
    (checkStage3B "GB/T 1.1 测试" "non-law" "").auto_fixable_fail = false :=
  ⟨by decide, stageB_nonlaw_short_circuit "GB/T 1.1 测试" "non-law" "" (Or.inl rfl)⟩

/-- **C8** (amended): a read failure on either stage file short-circuits the
check entry to a hard FAIL — stage-A and stage-B marked failed, overall
fail, decision `rejected_check_failed` — and the entry carries only the two
precheck items, so neither the stage-A comparator nor any stage-B rule item
appears. -/
theorem precheck_short_circuit (f1 f2 : FileState) (law_decision : String)
    (attempt : Nat) (stage2_reason : String)
    (h : (readText f1).2.isSome = true ∨ (readText f2).2.isSome = true) :
    (runStage3Checks f1 f2 law_decision attempt stage2_reason).stage3a_pass = false ∧
    (runStage3Checks f1 f2 law_decision attempt stage2_reason).stage3b_pass = false ∧
    (runStage3Checks f1 f2 law_decision attempt stage2_reason).overall_pass = false ∧
    (runStage3Checks f1 f2 law_decision attempt stage2_reason).business_decision =
      "rejected_check_failed" ∧
    (runStage3Checks f1 f2 law_decision attempt stage2_reason).reject_reason =
      "file-precheck-failed" ∧
    (runStage3Checks f1 f2 law_decision attempt stage2_reason).checks.map CheckItem.id =
      ["CHK-000A", "CHK-000B"] := by
  have hcond : ((readText f1).2.isSome || (readText f2).2.isSome) = true := by
    rcases h with h | h <;> simp [h]
  unfold runStage3Checks
  rw [if_pos hcond]
  exact ⟨rfl, rfl, rfl, rfl, rfl, rfl⟩

/-- Witness for `precheck_short_circuit`: a missing stage-1 file. -/
theorem precheck_short_circuit_witness :
    (runStage3Checks .missing (.content "x") "law" 0 "").stage3a_pass = false ∧
    (runStage3Checks .missing (.content "x") "law" 0 "").stage3b_pass = false ∧
    (runStage3Checks .missing (.content "x") "law" 0 "").overall_pass = false ∧
    (runStage3Checks .missing (.content "x") "law" 0 "").business_decision =
      "rejected_check_failed" ∧
    (runStage3Checks .missing (.content "x") "law" 0 "").reject_reason =
      "file-precheck-failed" ∧
    (runStage3Checks .missing (.content "x") "law" 0 "").checks.map CheckItem.id =
      ["CHK-000A", "CHK-000B"] :=
  precheck_short_circuit .missing (.content "x") "law" 0 "" (Or.inl rfl)

/-- Counterexample to **C8** as stated: a UTF-8 decode failure is surfaced
with the reason code `"utf8-decode-failed"`, not `"encoding-failure"`. -/
theorem utf8_reason_code_counterexample :
    readText .undecodable = (none, some "utf8-decode-failed") ∧
    (runStage3Checks .undecodable (.content "x") "law" 0 "").checks.map CheckItem.detail =
      ["utf8-decode-failed", "ok"] ∧
    "utf8-decode-failed" ≠ "encoding-failure" :=
  ⟨rfl, rfl, by decide⟩

/-- The decision assembly of `stageBMain`, for any line list: the
auto-fixable flag is the non-empty-subset-of-`{CHK-105, CHK-106}` test on
the failing ids, the business decision is `approved` exactly on an empty
failure set and `rejected_check_failed` otherwise, and CHK-105 / CHK-106
are in the failure set exactly when the whitespace rule / the item rule
found a violation. -/
theorem stageBMain_fields (lines : List (List Char)) :
    ((stageBMain lines).auto_fixable_fail = true ↔
      (stageBMain lines).fail_ids ≠ [] ∧
        ∀ x ∈ (stageBMain lines).fail_ids, x = "CHK-105" ∨ x = "CHK-106") ∧
    ((stageBMain lines).business_decision = "approved" ↔ (stageBMain lines).fail_ids = []) ∧
    ((stageBMain lines).fail_ids ≠ [] →
      (stageBMain lines).business_decision = "rejected_check_failed") ∧
    ("CHK-105" ∈ (stageBMain lines).fail_ids ↔ spaceScan (enumLines lines) ≠ none) ∧
    ("CHK-106" ∈ (stageBMain lines).fail_ids ↔ itemScan (enumLines lines) ≠ none) := by
  rcases hhf : hierarchyFail (headingRows lines) with _ | f1 <;>
    rcases haf : articleFail lines with _ | f2 <;>
      rcases hsf : spaceScan (enumLines lines) with _ | f3 <;>
        rcases hif : itemScan (enumLines lines) with _ | f4 <;>
          rcases hstf : structuralFail lines with _ | f5 <;>
            simp_all [stageBMain]

/-- **C5**: outside the non-law branch, `_check_stage3_b` reports
`auto_fixable_fail = true` iff the failing id set is non-empty and contained
in `{CHK-105, CHK-106}`; the business decision is `approved` iff no rule
failed and `rejected_check_failed` otherwise; and CHK-105 / CHK-106 are
exactly the whitespace rule and the item/subitem rule. -/
theorem stageB_autofixable_and_decision (text law_decision stage2_reason : String)
    (h1 : law_decision ≠ "non-law") (h2 : stage2_reason ≠ "non-law-document") :
    ((checkStage3B text law_decision stage2_reason).auto_fixable_fail = true ↔
      (checkStage3B text law_decision stage2_reason).fail_ids ≠ [] ∧
        ∀ x ∈ (checkStage3B text law_decision stage2_reason).fail_ids,
          x = "CHK-105" ∨ x = "CHK-106") ∧
    ((checkStage3B text law_decision stage2_reason).business_decision = "approved" ↔
      (checkStage3B text law_decision stage2_reason).fail_ids = []) ∧
    ((checkStage3B text law_decision stage2_reason).fail_ids ≠ [] →
      (checkStage3B text law_decision stage2_reason).business_decision =
        "rejected_check_failed") ∧
    ("CHK-105" ∈ (checkStage3B text law_decision stage2_reason).fail_ids ↔
      spaceScan (enumLines (pySplitlines text.data)) ≠ none) ∧
    ("CHK-106" ∈ (checkStage3B text law_decision stage2_reason).fail_ids ↔
      itemScan (enumLines (pySplitlines text.data)) ≠ none) := by
  have hB : checkStage3B text law_decision stage2_reason =
      stageBMain (pySplitlines text.data) := by
    unfold checkStage3B
    rw [if_neg (by simp [h1, h2])]
  rw [hB]
  exact stageBMain_fields (pySplitlines text.data)

/-- Witness for `stageB_autofixable_and_decision`: a stage-2 text whose only
failures are the whitespace rule (trailing blank) and the item rule. -/
theorem stageB_autofixable_and_decision_witness :
    ((checkStage3B "x " "law" "applied").auto_fixable_fail = true ↔
      (checkStage3B "x " "law" "applied").fail_ids ≠ [] ∧
        ∀ x ∈ (checkStage3B "x " "law" "applied").fail_ids,
          x = "CHK-105" ∨ x = "CHK-106") ∧
    ((checkStage3B "x " "law" "applied").business_decision = "approved" ↔
      (checkStage3B "x " "law" "applied").fail_ids = []) ∧
    ((checkStage3B "x " "law" "applied").fail_ids ≠ [] →
      (checkStage3B "x " "law" "applied").business_decision = "rejected_check_failed") ∧
    ("CHK-105" ∈ (checkStage3B "x " "law" "applied").fail_ids ↔
      spaceScan (enumLines (pySplitlines "x ".data)) ≠ none) ∧
    ("CHK-106" ∈ (checkStage3B "x " "law" "applied").fail_ids ↔
      itemScan (enumLines (pySplitlines "x ".data)) ≠ none) :=
  stageB_autofixable_and_decision "x " "law" "applied" (by decide) (by decide)

theorem mem_insertSorted (n x : Nat) (ms : List Nat) (h : x ∈ insertSorted n ms) :
    x = n ∨ x ∈ ms := by
  induction ms with
  | nil => simpa [insertSorted] using h
  | cons m ms ih =>
      rw [insertSorted] at h
      split at h
      · simp only [List.mem_cons] at h ⊢
        tauto
      · split at h
        · simp only [List.mem_cons] at h ⊢
          tauto
        · simp only [List.mem_cons] at h ⊢
          rcases h with h | h
          · tauto
          · rcases ih h with h | h <;> tauto

theorem pairwise_insertSorted (n : Nat) (ms : List Nat) (h : ms.Pairwise (· < ·)) :
    (insertSorted n ms).Pairwise (· < ·) := by
  induction ms with
  | nil => simp [insertSorted]
  | cons m ms ih =>
      rw [insertSorted]
      rcases List.pairwise_cons.mp h with ⟨hm, hms⟩
      split
      · next hlt =>
          refine List.pairwise_cons.mpr ⟨?_, h⟩
          intro y hy
          rcases List.mem_cons.mp hy with rfl | hy
          · exact hlt
          · exact lt_trans hlt (hm y hy)
      · next hlt =>
          split
          · exact h
          · next hne =>
              have hmn : m < n := by omega
              refine List.pairwise_cons.mpr ⟨?_, ih hms⟩
              intro y hy
              rcases mem_insertSorted n y ms hy with rfl | hy
              · exact hmn
              · exact hm y hy

theorem pairwise_dedupSort (xs : List Nat) : (dedupSort xs).Pairwise (· < ·) := by
  induction xs with
  | nil => simp [dedupSort]
  | cons x xs ih =>
      simp only [dedupSort, List.foldr_cons]
      exact pairwise_insertSorted x _ ih

theorem drop_take_append (l : List Char) {a b : Nat} (h : a ≤ b) :
    (l.take b).drop a ++ l.drop b = l.drop a := by
  conv_rhs => rw [← List.take_append_drop b l]
  rw [List.drop_append_eq_append_drop]
  congr 1
  by_cases hl : a ≤ l.length
  · have h0 : a - (l.take b).length = 0 := by
      rw [List.length_take]
      omega
    rw [h0, List.drop_zero]
  · have hb : l.drop b = [] := List.drop_eq_nil_iff.mpr (by omega)
    simp [hb]

theorem slicesFrom_length (l : List Char) :
    ∀ (ms : List Nat) (last : Nat), (slicesFrom l last ms).length = ms.length + 1
  | [], _ => by simp [slicesFrom]
  | m :: ms, last => by simp [slicesFrom, slicesFrom_length l ms m]

theorem slicesFrom_flatten (l : List Char) :
    ∀ (ms : List Nat) (last : Nat), List.Chain' (· ≤ ·) (last :: ms) →
      (slicesFrom l last ms).flatten = l.drop last
  | [], last, _ => by simp [slicesFrom]
  | m :: ms, last, h => by
      have h1 : last ≤ m := (List.chain'_cons.mp h).1
      have h2 : List.Chain' (· ≤ ·) (m :: ms) := (List.chain'_cons.mp h).2
      simp only [slicesFrom, List.flatten_cons]
      rw [slicesFrom_flatten l ms m h2, drop_take_append l h1]

/-- **C10**: `_split_item_and_subitem` only ever cuts the line: the returned
pieces concatenate back to the original line, the reported count is the
number of pieces minus one, and a line with at most one marker comes back
whole with count `0`. -/
theorem split_item_subitem_faithful (l : List Char) :
    (splitItemAndSubitem l).1.flatten = l ∧
    (splitItemAndSubitem l).2 = (splitItemAndSubitem l).1.length - 1 ∧
    ((splitMarkers l).length ≤ 1 → splitItemAndSubitem l = ([l], 0)) := by
  simp only [splitItemAndSubitem]
  by_cases hm : (splitMarkers l).length ≤ 1
  · rw [if_pos hm]
    exact ⟨by simp, by simp, fun _ => rfl⟩
  · rw [if_neg hm]
    refine ⟨?_, ?_, fun h => absurd h hm⟩
    · have hp : (splitMarkers l).Pairwise (· < ·) := pairwise_dedupSort _
      have hc : List.Chain' (· ≤ ·) (0 :: (splitMarkers l).tail) := by
        rcases hms : splitMarkers l with _ | ⟨a, ms⟩
        · simp
        · have hpc : (a :: ms).Pairwise (· < ·) := hms ▸ hp
          have hch : List.Chain' (· ≤ ·) ms :=
            (((List.pairwise_cons.mp hpc).2).imp fun h => le_of_lt h).chain'
          cases ms with
          | nil => simp
          | cons b ms' => exact List.chain'_cons.mpr ⟨Nat.zero_le _, hch⟩
      simpa using slicesFrom_flatten l (splitMarkers l).tail 0 hc
    · rw [slicesFrom_length]
      simp

/-- Witness for `split_item_subitem_faithful`: the no-marker case and the
two-marker case, both from the theorem. -/
theorem split_item_subitem_faithful_witness :
    splitItemAndSubitem "（一）条款".data = (["（一）条款".data], 0) ∧
    (splitItemAndSubitem "（一）a（二）b".data).1.flatten = "（一）a（二）b".data :=
  ⟨(split_item_subitem_faithful "（一）条款".data).2.2 (by decide),
   (split_item_subitem_faithful "（一）a（二）b".data).1⟩

/-- **C7**: the line `（一）甲方义务（二）乙方义务` splits into exactly the
two lines `（一）甲方义务` and `（二）乙方义务`, in that order, with one
split counted: at the split function, at the loop body for any non-title
position and any prior state, and in a full `default`-profile normalization
of a document containing the line. -/
theorem item_split_example_line :
    splitItemAndSubitem "（一）甲方义务（二）乙方义务".data =
      (["（一）甲方义务".data, "（二）乙方义务".data], 1) ∧
    (∀ (st : LoopState) (i : Nat) (ti : Option Nat), ti ≠ some i →
      stepLine "default" ti st (i, "（一）甲方义务（二）乙方义务".data) =
        { st with out := st.out ++ ["（一）甲方义务".data, "（二）乙方义务".data],
                  item_split_count := st.item_split_count + 1 }) ∧
    normalizeCnLawMarkdown "第一条\n（一）甲方义务（二）乙方义务" "law" "default" =
      ⟨"##### 第一条\n（一）甲方义务\n（二）乙方义务", true,
        ⟨true, true, "applied", 0, 0, 0, 0, 1, 1, 0⟩⟩ := by
  refine ⟨by decide, ?_, by decide⟩
  intro st i ti hti
  have h0 : ¬("（一）甲方义务（二）乙方义务".data = ([] : List Char)) := by decide
  have hPart : rePart (stripHeadingMarks "（一）甲方义务（二）乙方义务".data) = false := by
    decide
  have hCh : reChapter (stripHeadingMarks "（一）甲方义务（二）乙方义务".data) = false := by
    decide
  have hSe : reSection (stripHeadingMarks "（一）甲方义务（二）乙方义务".data) = false := by
    decide
  have hAg : reArticleGroups (stripHeadingMarks "（一）甲方义务（二）乙方义务".data) =
      none := by decide
  have hsplit : splitItemAndSubitem "（一）甲方义务（二）乙方义务".data =
      (["（一）甲方义务".data, "（二）乙方义务".data], 1) := by decide
  simp [stepLine, h0, hti, hPart, hCh, hSe, hAg, hsplit]

/-- Witness for `item_split_example_line`'s quantified middle part at a
concrete state and position. -/
theorem item_split_example_line_witness :
    stepLine "default" none ⟨[], 0, 0, 0, 0, 0, 0⟩ (1, "（一）甲方义务（二）乙方义务".data) =
      ⟨["（一）甲方义务".data, "（二）乙方义务".data], 0, 0, 0, 0, 0, 1⟩ :=
  (item_split_example_line.2.1 ⟨[], 0, 0, 0, 0, 0, 0⟩ 1 none (by decide))

/-- Two structural matchers with incompatible tails cannot both fire: they
parse the same maximal whitespace run, the same `第` and the same maximal
numeral run, so the tail conditions see the same remainder. -/
theorem matchStructCore_disjoint {l : List Char} {t1 t2 : List Char → Bool}
    (hd : ∀ t, t1 t = true → t2 t = false)
    (h : matchStructCore l t1 = true) : matchStructCore l t2 = false := by
  unfold matchStructCore at h ⊢
  rcases hl : l.dropWhile isPySpace with _ | ⟨c, rest⟩
  · simp [hl] at h
  · rw [hl] at h
    simp only [Bool.and_eq_true] at h
    obtain ⟨⟨hc, hn⟩, ht⟩ := h
    simp [hc, hn, hd _ ht]

theorem reArticleHead_not_section {l : List Char} (h : reArticleHead l = true) :
    reSection l = false :=
  matchStructCore_disjoint
    (by intro t ht; simp only [decide_eq_true_eq] at ht; simp [ht]) h

theorem reArticleHead_not_chapter {l : List Char} (h : reArticleHead l = true) :
    reChapter l = false :=
  matchStructCore_disjoint
    (by intro t ht; simp only [decide_eq_true_eq] at ht; simp [ht]) h

theorem reSection_not_chapter {l : List Char} (h : reSection l = true) :
    reChapter l = false :=
  matchStructCore_disjoint
    (by intro t ht; simp only [decide_eq_true_eq] at ht; simp [ht]) h

theorem reArticleHead_not_part {l : List Char} (h : reArticleHead l = true) :
    rePart l = false :=
  matchStructCore_disjoint
    (by
      intro t ht
      simp only [decide_eq_true_eq] at ht
      rcases t with _ | ⟨a, t'⟩ <;> simp_all) h

theorem reSection_not_part {l : List Char} (h : reSection l = true) :
    rePart l = false :=
  matchStructCore_disjoint
    (by
      intro t ht
      simp only [decide_eq_true_eq] at ht
      rcases t with _ | ⟨a, t'⟩ <;> simp_all) h

theorem reChapter_not_part {l : List Char} (h : reChapter l = true) :
    rePart l = false :=
  matchStructCore_disjoint
    (by
      intro t ht
      simp only [decide_eq_true_eq] at ht
      rcases t with _ | ⟨a, t'⟩ <;> simp_all) h

theorem detectStep_article (st : DetectState) (p : Nat × List Char) :
    (detectStep st p).has_article = (st.has_article || lineIsArticle p.2) := by
  simp only [detectStep, lineIsArticle]
  split
  · next h => simp [h]
  · next h =>
      simp only [Bool.not_eq_true] at h
      rw [h]
      split
      · simp
      · split
        · simp
        · split <;> simp

theorem detectStep_section (st : DetectState) (p : Nat × List Char) :
    (detectStep st p).has_section = (st.has_section || lineIsSection p.2) := by
  simp only [detectStep, lineIsSection]
  split
  · next h => simp [reArticleHead_not_section h]
  · split
    · next h => simp [h]
    · next h =>
        simp only [Bool.not_eq_true] at h
        rw [h]
        split
        · simp
        · split <;> simp

theorem detectStep_chapter (st : DetectState) (p : Nat × List Char) :
    (detectStep st p).has_chapter = (st.has_chapter || lineIsChapter p.2) := by
  simp only [detectStep, lineIsChapter]
  split
  · next h => simp [reArticleHead_not_chapter h]
  · split
    · next h => simp [reSection_not_chapter h]
    · split
      · next h => simp [h]
      · next h =>
          simp only [Bool.not_eq_true] at h
          rw [h]
          split <;> simp

theorem detectStep_part (st : DetectState) (p : Nat × List Char) :
    (detectStep st p).has_part = (st.has_part || lineIsPart p.2) := by
  simp only [detectStep, lineIsPart]
  split
  · next h => simp [reArticleHead_not_part h]
  · split
    · next h => simp [reSection_not_part h]
    · split
      · next h => simp [reChapter_not_part h]
      · split
        · next h => simp [h]
        · next h =>
            simp only [Bool.not_eq_true] at h
            rw [h]
            simp

theorem detect_foldl_flags (lines : List (List Char)) :
    ∀ (n : Nat) (st : DetectState),
      ((List.enumFrom n lines).foldl detectStep st).has_article =
          (st.has_article || lines.any lineIsArticle) ∧
      ((List.enumFrom n lines).foldl detectStep st).has_section =
          (st.has_section || lines.any lineIsSection) ∧
      ((List.enumFrom n lines).foldl detectStep st).has_chapter =
          (st.has_chapter || lines.any lineIsChapter) ∧
      ((List.enumFrom n lines).foldl detectStep st).has_part =
          (st.has_part || lines.any lineIsPart) := by
  induction lines with
  | nil => simp
  | cons l ls ih =>
      intro n st
      simp only [List.enumFrom, List.foldl_cons, List.any_cons]
      obtain ⟨ha, hs, hc, hp⟩ := ih (n + 1) (detectStep st (n, l))
      rw [ha, hs, hc, hp, detectStep_article, detectStep_section, detectStep_chapter,
        detectStep_part]
      simp [Bool.or_assoc]

/-- The detection flags are the existence of marker lines. -/
theorem legalDetected_iff (lines : List (List Char)) :
    legalDetected lines = true ↔
      lines.any lineIsArticle = true ∨
      (lines.any lineIsChapter = true ∧ lines.any lineIsSection = true) ∨
      (lines.any lineIsPart = true ∧ lines.any lineIsChapter = true) := by
  obtain ⟨ha, hs, hc, hp⟩ := detect_foldl_flags lines 0 ⟨false, false, false, false, []⟩
  simp only [legalDetected, detectStructure]
  rw [show lines.enum = List.enumFrom 0 lines from rfl, ha, hs, hc, hp]
  simp only [Bool.false_or, Bool.or_eq_true, Bool.and_eq_true, or_assoc]

/-- **C4**: when the input is not rejected as a non-law document, the
`legal_structure_detected` flag holds exactly when the document has an
Article-marker line, or both a Chapter- and a Section-marker line, or both a
Part- and a Chapter-marker line; and when it is false for this reason, the
text is returned unchanged with reason `legal-structure-not-detected` and
`applied = false`. -/
theorem legal_structure_detection (text law_decision stage2_profile : String)
    (h : (normalizeCnLawMarkdown text law_decision stage2_profile).stats.reason ≠
      "non-law-document") :
    ((normalizeCnLawMarkdown text law_decision stage2_profile).stats.legal_structure_detected
        = true ↔
      (pySplitlines text.data).any lineIsArticle = true ∨
      ((pySplitlines text.data).any lineIsChapter = true ∧
        (pySplitlines text.data).any lineIsSection = true) ∨
      ((pySplitlines text.data).any lineIsPart = true ∧
        (pySplitlines text.data).any lineIsChapter = true)) ∧
    ((normalizeCnLawMarkdown text law_decision stage2_profile).stats.legal_structure_detected
        = false →
      (normalizeCnLawMarkdown text law_decision stage2_profile).text = text ∧
      (normalizeCnLawMarkdown text law_decision stage2_profile).stats.reason =
        "legal-structure-not-detected" ∧
      (normalizeCnLawMarkdown text law_decision stage2_profile).applied = false) := by
  simp only [normalizeCnLawMarkdown] at h ⊢
  split
  · next h1 =>
      rw [if_pos h1] at h
      exact absurd rfl h
  next h1 =>
    split
    · next h2 =>
        rw [if_neg h1, if_pos h2] at h
        exact absurd rfl h
    next h2 =>
      split
      · next hdet =>
          rw [← legalDetected_iff]
          refine ⟨⟨fun hfalse => absurd hfalse (by simp [noStructStats]), ?_⟩,
            fun _ => ⟨rfl, rfl, rfl⟩⟩
          intro htrue
          simp [htrue] at hdet
      · next hdet =>
          simp only [Bool.not_eq_false] at hdet
          rw [← legalDetected_iff]
          split
          · exact ⟨by simp [hdet], fun hfalse => absurd hfalse (by simp)⟩
          · exact ⟨by simp [preserveFailStats, hdet],
              fun hfalse => absurd hfalse (by simp [preserveFailStats])⟩

/-- Witness for `legal_structure_detection` at a structured and an
unstructured input folded into one statement via the structured one. -/
theorem legal_structure_detection_witness :
    ((normalizeCnLawMarkdown "第一条" "law" "default").stats.legal_structure_detected = true ↔
      (pySplitlines "第一条".data).any lineIsArticle = true ∨
      ((pySplitlines "第一条".data).any lineIsChapter = true ∧
        (pySplitlines "第一条".data).any lineIsSection = true) ∨
      ((pySplitlines "第一条".data).any lineIsPart = true ∧
        (pySplitlines "第一条".data).any lineIsChapter = true)) ∧
    ((normalizeCnLawMarkdown "第一条" "law" "default").stats.legal_structure_detected = false →
      (normalizeCnLawMarkdown "第一条" "law" "default").text = "第一条" ∧
      (normalizeCnLawMarkdown "第一条" "law" "default").stats.reason =
        "legal-structure-not-detected" ∧
      (normalizeCnLawMarkdown "第一条" "law" "default").applied = false) :=
  legal_structure_detection "第一条" "law" "default" (by decide)

/-- When the failure set is exactly `{CHK-107}`, stage B decides
`rejected_check_failed` and the failure is not auto-fixable. -/
theorem stageB_only107 (t law_decision stage2_reason : String)
    (h : (checkStage3B t law_decision stage2_reason).fail_ids = ["CHK-107"]) :
    (checkStage3B t law_decision stage2_reason).business_decision =
      "rejected_check_failed" ∧
    (checkStage3B t law_decision stage2_reason).auto_fixable_fail = false := by
  by_cases hc : (law_decision = "non-law" || stage2_reason = "non-law-document") = true
  · unfold checkStage3B at h
    rw [if_pos hc] at h
    dsimp only at h
    split at h
    · exact absurd h (by decide)
    · exact absurd h (by decide)
  · have he : checkStage3B t law_decision stage2_reason =
        stageBMain (pySplitlines t.data) := by
      unfold checkStage3B
      rw [if_neg hc]
    rw [he] at h ⊢
    obtain ⟨hA, _, hRej, _, _⟩ := stageBMain_fields (pySplitlines t.data)
    refine ⟨hRej (by rw [h]; simp), ?_⟩
    cases hauto : (stageBMain (pySplitlines t.data)).auto_fixable_fail
    · rfl
    · exfalso
      obtain ⟨_, hall⟩ := hA.mp hauto
      have h7 := hall "CHK-107" (by rw [h]; simp)
      revert h7
      decide

/-- `run_stage3_checks` on two readable non-empty files: field projections
(all definitional). -/
theorem runStage3Checks_content_business (s1 s2 law_decision : String) (attempt : Nat)
    (reason p : String) :
    ({runStage3Checks (.content s1) (.content s2) law_decision attempt reason with
        stage2_profile := p}).business_decision =
      (checkStage3B s2 law_decision reason).business_decision := rfl

theorem runStage3Checks_content_overall (s1 s2 law_decision : String) (attempt : Nat)
    (reason p : String) :
    ({runStage3Checks (.content s1) (.content s2) law_decision attempt reason with
        stage2_profile := p}).overall_pass =
      ((checkStage3A s1 s2).status && (checkStage3B s2 law_decision reason).pass &&
        ((checkStage3B s2 law_decision reason).business_decision = "approved")) := rfl

theorem runStage3Checks_content_autofixable (s1 s2 law_decision : String) (attempt : Nat)
    (reason p : String) :
    ({runStage3Checks (.content s1) (.content s2) law_decision attempt reason with
        stage2_profile := p}).stage3b_auto_fixable_fail =
      (checkStage3B s2 law_decision reason).auto_fixable_fail := rfl

theorem runStage3Checks_content_autofix_applied (s1 s2 law_decision : String) (attempt : Nat)
    (reason p : String) :
    ({runStage3Checks (.content s1) (.content s2) law_decision attempt reason with
        stage2_profile := p}).auto_fix_applied = false := rfl

theorem stage2ProfileForAttempt_mem (attempt : Nat) :
    stage2ProfileForAttempt attempt ∈ (["default", "structure", "minimal"] : List String) := by
  unfold stage2ProfileForAttempt
  split
  · simp
  · split <;> simp

/-- The exhaustion run of the controller loop: when every profile's
normalized output fails stage B with exactly `{CHK-107}`, every iteration
falls through, one entry per attempt, no auto-fix, ending rejected. -/
theorem pipelineGo_exhaust (stage1 law_decision : String) (hs1 : stage1 ≠ "")
    (hB : ∀ p ∈ (["default", "structure", "minimal"] : List String),
      (runStage2Normalize stage1 law_decision p).1 ≠ "" ∧
      (checkStage3B (runStage2Normalize stage1 law_decision p).1 law_decision
          (runStage2Normalize stage1 law_decision p).2).fail_ids = ["CHK-107"]) :
    ∀ (fuel attempt : Nat) (stage2 : String) (acc : List CheckEntry) (lr : String),
      (attempt = 0 → stage2 = stage1) →
      (pipelineGo stage1 law_decision fuel attempt stage2 acc lr).review_status =
        "rejected_check_failed" ∧
      (pipelineGo stage1 law_decision fuel attempt stage2 acc lr).attempts.length =
        acc.length + fuel ∧
      ((∀ e ∈ acc, e.auto_fix_applied = false) →
        ∀ e ∈ (pipelineGo stage1 law_decision fuel attempt stage2 acc lr).attempts,
          e.auto_fix_applied = false) := by
  intro fuel
  induction fuel with
  | zero =>
      intro attempt stage2 acc lr _
      exact ⟨rfl, by simp [pipelineGo], fun hacc => by simpa [pipelineGo] using hacc⟩
  | succ fuel ih =>
      intro attempt stage2 acc lr h0
      have hbase : (if 0 < attempt then stage1 else stage2) = stage1 := by
        rcases Nat.eq_zero_or_pos attempt with ha | hpos
        · simp [ha, h0 ha]
        · simp [hpos]
      obtain ⟨hne, h107⟩ := hB _ (stage2ProfileForAttempt_mem attempt)
      obtain ⟨hbus, hauto⟩ :=
        stageB_only107 _ law_decision _ h107
      have hf1 : fileOf stage1 = .content stage1 := by simp [fileOf, hs1]
      have hf2 : fileOf (runStage2Normalize stage1 law_decision
          (stage2ProfileForAttempt attempt)).1 =
          .content (runStage2Normalize stage1 law_decision
            (stage2ProfileForAttempt attempt)).1 := by
        simp [fileOf, hne]
      simp only [pipelineGo]
      rw [hbase, hf1, hf2]
      rw [if_neg (by rw [runStage3Checks_content_business, hbus]; decide)]
      rw [if_neg (by rw [runStage3Checks_content_overall, hbus]; simp)]
      rw [if_neg (by rw [runStage3Checks_content_autofixable, hauto]; simp)]
      obtain ⟨ih1, ih2, ih3⟩ :=
        ih (attempt + 1) (runStage2Normalize stage1 law_decision
          (stage2ProfileForAttempt attempt)).1 _ (runStage2Normalize stage1 law_decision
          (stage2ProfileForAttempt attempt)).2 (fun hcontra => absurd hcontra (by omega))
      refine ⟨ih1, ?_, ?_⟩
      · rw [ih2, List.length_append]
        simp
        omega
      · intro hacc
        apply ih3
        intro e he
        rcases List.mem_append.mp he with he | he
        · exact hacc e he
        · rcases List.mem_singleton.mp he with rfl
          exact runStage3Checks_content_autofix_applied _ _ _ _ _ _

/-- **C3**: for every retry budget and every document whose stage-B check
fails exactly the structural-completeness rule CHK-107 under every profile,
the controller terminates `rejected_check_failed` after recording exactly
`stage3_max_retries + 1` check entries and performing zero auto-fix
rechecks. -/
theorem retry_exhaustion_only_structural_fail (stage1 law_decision : String) (R : Nat)
    (hs1 : stage1 ≠ "")
    (hB : ∀ p ∈ (["default", "structure", "minimal"] : List String),
      (runStage2Normalize stage1 law_decision p).1 ≠ "" ∧
      (checkStage3B (runStage2Normalize stage1 law_decision p).1 law_decision
          (runStage2Normalize stage1 law_decision p).2).fail_ids = ["CHK-107"]) :
    (runStage2Stage3Pipeline stage1 law_decision R).review_status =
      "rejected_check_failed" ∧
    (runStage2Stage3Pipeline stage1 law_decision R).attempts.length = R + 1 ∧
    ∀ e ∈ (runStage2Stage3Pipeline stage1 law_decision R).attempts,
      e.auto_fix_applied = false := by
  obtain ⟨h1, h2, h3⟩ :=
    pipelineGo_exhaust stage1 law_decision hs1 hB (R + 1) 0 stage1 [] "" (fun _ => rfl)
  exact ⟨h1, by simpa using h2, h3 (by simp)⟩

/-- Witness for `retry_exhaustion_only_structural_fail`: a titled document
with only a Section heading (no Chapter, no Article) under retry budget 1. -/
theorem retry_exhaustion_only_structural_fail_witness :
    (runStage2Stage3Pipeline "# 名称\n#### 第一节\n" "law" 1).review_status =
      "rejected_check_failed" ∧
    (runStage2Stage3Pipeline "# 名称\n#### 第一节\n" "law" 1).attempts.length = 1 + 1 ∧
    ∀ e ∈ (runStage2Stage3Pipeline "# 名称\n#### 第一节\n" "law" 1).attempts,
      e.auto_fix_applied = false :=
  retry_exhaustion_only_structural_fail "# 名称\n#### 第一节\n" "law" 1
    (by decide) (by decide)

theorem splitItemAndSubitem_single {l : List Char}
    (h : (splitMarkers l).length ≤ 1) : splitItemAndSubitem l = ([l], 0) := by
  simp only [splitItemAndSubitem]
  rw [if_pos h]

/-- A normal-form line passes through the `default`-profile loop body
unchanged, whatever the accumulated state and counters. -/
theorem stepLine_out_NF (ti : Option Nat) (st : LoopState) (i : Nat) (raw : List Char)
    (h : lineNF (ti = some i) raw = true) :
    (stepLine "default" ti st (i, raw)).out = st.out ++ [raw] := by
  rw [lineNF] at h
  simp only [stepLine]
  by_cases h0 : raw = []
  · rw [if_pos h0]
  · rw [if_neg h0] at h ⊢
    simp only [Bool.and_eq_true, decide_eq_true_eq] at h
    obtain ⟨_, hrest⟩ := h
    by_cases ht : ti = some i
    · rw [if_pos ht] at hrest ⊢
      simp only [decide_eq_true_eq] at hrest
      conv_rhs => rw [hrest]
    · rw [if_neg ht] at hrest ⊢
      by_cases hp : rePart (stripHeadingMarks raw) = true
      · rw [if_pos hp] at hrest ⊢
        simp only [decide_eq_true_eq] at hrest
        conv_rhs => rw [hrest]
      · rw [if_neg hp] at hrest ⊢
        by_cases hch : reChapter (stripHeadingMarks raw) = true
        · rw [if_pos hch] at hrest ⊢
          simp only [decide_eq_true_eq] at hrest
          conv_rhs => rw [hrest]
        · rw [if_neg hch] at hrest ⊢
          by_cases hse : reSection (stripHeadingMarks raw) = true
          · rw [if_pos hse] at hrest ⊢
            simp only [decide_eq_true_eq] at hrest
            conv_rhs => rw [hrest]
          · rw [if_neg hse] at hrest ⊢
            rcases hag : reArticleGroups (stripHeadingMarks raw) with _ | ⟨lead, tok, rest⟩
            · simp only [hag] at hrest
              simp only [decide_eq_true_eq] at hrest
              simp only [hag, if_true]
              rw [splitItemAndSubitem_single hrest]
            · simp only [hag] at hrest
              simp only [hag]
              by_cases hbn : matchBracketNote rest = true
              · rw [if_pos hbn] at hrest ⊢
                simp only [decide_eq_true_eq] at hrest
                conv_rhs => rw [hrest]
              · rw [if_neg hbn] at hrest ⊢
                simp only [Bool.and_eq_true, decide_eq_true_eq] at hrest
                obtain ⟨hre, hraw⟩ := hrest
                rw [if_pos hre]
                conv_rhs => rw [hraw]

/-- Folding the loop body over normal-form lines reproduces them. -/
theorem runLoop_out_NF_aux (ti : Option Nat) (lines : List (List Char)) :
    ∀ (n : Nat) (st : LoopState),
      (∀ p ∈ List.enumFrom n lines, lineNF (ti = some p.1) p.2 = true) →
      ((List.enumFrom n lines).foldl (stepLine "default" ti) st).out = st.out ++ lines := by
  induction lines with
  | nil => intro n st _; simp
  | cons l ls ih =>
      intro n st h
      simp only [List.enumFrom, List.foldl_cons]
      have h1 : lineNF (ti = some n) l = true := h (n, l) (by simp [List.enumFrom])
      rw [ih (n + 1) _ (fun p hp => h p (by simp [List.enumFrom, hp]))]
      rw [stepLine_out_NF ti st n l h1]
      simp

/-- A normal-form line is cleanup-stable. -/
theorem lineNF_cleanup {b : Bool} {raw : List Char} (h : lineNF b raw = true) :
    cleanupLine raw = (raw, 0) := by
  rw [lineNF] at h
  by_cases h0 : raw = []
  · subst h0
    rfl
  · rw [if_neg h0] at h
    simp only [Bool.and_eq_true, decide_eq_true_eq] at h
    exact h.1

/-- The whitespace-cleanup pass is the identity on cleanup-stable lines. -/
theorem cleanup_id_of_stable (ls : List (List Char))
    (h : ∀ l ∈ ls, cleanupLine l = (l, 0)) :
    (cleanupExtraSpaces ls).1 = ls := by
  unfold cleanupExtraSpaces
  have hm : ls.map (fun l => (cleanupLine l).1) = ls.map id := by
    apply List.map_congr_left
    intro a ha
    rw [h a ha]
    rfl
  simpa using hm

/-- **C6** (amended): a document already in stage-2 `default`-profile normal
form — every line empty, or a clean heading reproducing its structural
classification (title level 1, Part 2, Chapter 3, Section 4, Article 5 with
no un-annotated remainder), or a clean body line matching no structural
marker and holding at most one item/subitem marker, with ordinary `\n` line
separation — re-normalizes with `applied = false`, for every
`law_decision`. -/
theorem normal_form_renormalize_noop (text : String) (law_decision : String)
    (hNF : docNF (pySplitlines text.data) = true)
    (hjoin : joinNL (pySplitlines text.data) ++
        (if text.data.getLast? = some '\n' then ['\n'] else []) = text.data) :
    (normalizeCnLawMarkdown text law_decision "default").applied = false := by
  have hclean : ∀ l ∈ pySplitlines text.data, cleanupLine l = (l, 0) := by
    intro l hl
    have hl' : l ∈ (pySplitlines text.data).enum.map Prod.snd := by
      rw [List.enum_map_snd]
      exact hl
    rcases List.mem_map.mp hl' with ⟨p, hp, rfl⟩
    exact lineNF_cleanup (List.all_eq_true.mp hNF p hp)
  have hnt : (normTransform text "default").1 = text.data := by
    simp only [normTransform]
    rw [show runLoop "default"
        (titleIdxOf (pySplitlines text.data)
          (firstStructureIdx (detectStructure (pySplitlines text.data)).idxs
            (pySplitlines text.data).length)) (pySplitlines text.data) =
       (List.enumFrom 0 (pySplitlines text.data)).foldl
        (stepLine "default" (titleIdxOf (pySplitlines text.data)
          (firstStructureIdx (detectStructure (pySplitlines text.data)).idxs
            (pySplitlines text.data).length))) ⟨[], 0, 0, 0, 0, 0, 0⟩ from rfl]
    rw [runLoop_out_NF_aux _ _ 0 _ (fun p hp => List.all_eq_true.mp hNF p hp)]
    rw [List.nil_append, cleanup_id_of_stable _ hclean, hjoin]
  simp only [normalizeCnLawMarkdown]
  split
  · rfl
  split
  · rfl
  split
  · rfl
  rw [show validProfile "default" = "default" from rfl]
  split
  · next hc => simp [hnt]
  · next hc =>
      rw [hnt] at hc

/-- Witness for `normal_form_renormalize_noop` at a concrete normal-form
document. -/
theorem normal_form_renormalize_noop_witness :
    (normalizeCnLawMarkdown "# 民法典\n##### 第一条\n内容" "law" "default").applied = false :=
  normal_form_renormalize_noop "# 民法典\n##### 第一条\n内容" "law" (by decide) (by decide)

/-- Counterexample to **C6** as stated: `d = "第一条\n 　 x"` (an article
heading followed by a body line indented with a space, a full-width space
and a space) normalizes successfully under the `default` profile — structure
detected, preservation passed, changes applied — yet re-normalizing its
output applies further changes (`applied = true` again), because the cleanup
pass strips only one alternation layer of mixed indentation per run. -/
theorem renormalize_not_noop_counterexample :
    (normalizeCnLawMarkdown "第一条\n 　 x" "law" "default").applied = true ∧
    (normalizeCnLawMarkdown "第一条\n 　 x" "law" "default").stats.preserve_check_passed
      = true ∧
    (normalizeCnLawMarkdown "第一条\n 　 x" "law" "default").stats.legal_structure_detected
      = true ∧
    (normalizeCnLawMarkdown "第一条\n 　 x" "law" "default").text = "##### 第一条\n x" ∧
    (normalizeCnLawMarkdown
      (normalizeCnLawMarkdown "第一条\n 　 x" "law" "default").text "law" "default").applied
      = true :=
  ⟨by decide, by decide, by decide, by decide, by decide⟩

end CnLaw
